import Mathlib

/-!
Verification of the trix LLM provider-adapter layer.

The development shallowly embeds the Go sources of the repository:
`internal/llm/client.go` (canonical model), `internal/llm/openai.go`,
`internal/llm/mistral.go` and the Anthropic client (`AnthropicClient`).
Pure conversion code is translated to Lean functions; the HTTP layer is
modelled by passing an explicit transport function; JSON payloads whose
only observable is the result of `json.Unmarshal` are modelled by that
observable.
-/

namespace Trix

/-- A JSON-compatible value, the codomain of Go's `map[string]interface{}`
entries used for tool parameters and schemas. -/
inductive Json where
  | null : Json
  | bool : Bool → Json
  | num : Int → Json
  | str : String → Json
  | arr : List Json → Json
  | obj : List (String × Json) → Json

/-- A Go `map[string]interface{}`, modelled as an ordered association list. -/
abbrev Params := List (String × Json)

/-- The wire form of a tool-call argument payload (a JSON string for the
OpenAI/Mistral adapters, a `json.RawMessage` for the Anthropic adapter),
modelled by its observable under `json.Unmarshal` into
`map[string]interface{}`: either it decodes to an object with the given
fields, or the unmarshal fails. -/
inductive ArgPayload where
  | ok : Params → ArgPayload
  | bad : ArgPayload

/-- Whether the payload unmarshals successfully. -/
def ArgPayload.isOk : ArgPayload → Bool
  | .ok _ => true
  | .bad => false

/-- The map produced by the adapters' shared pattern
`if err := json.Unmarshal(args, &params); err != nil { params = make(map...) }`:
the decoded fields on success, the empty map on failure. -/
def fieldsOf : ArgPayload → Params
  | .ok f => f
  | .bad => []

/-! ## Canonical message model (`internal/llm/client.go`) -/

/-- Role represents who sent a message (client.go). -/
inductive Role where
  | system
  | user
  | assistant
  | tool
deriving DecidableEq

/-- ToolCall represents an LLM's request to call a tool (client.go). -/
structure ToolCall where
  id : String
  name : String
  parameters : Params

/-- Message represents a conversation message (client.go). -/
structure Message where
  role : Role
  content : String
  toolCallID : String
  toolCalls : List ToolCall

/-- Tool describes a tool the LLM can call (client.go). -/
structure Tool where
  name : String
  description : String
  parameters : Params

/-- Usage tracks token consumption (client.go). -/
structure Usage where
  inputTokens : Int
  outputTokens : Int

/-- Response from the LLM (client.go). -/
structure Response where
  content : String
  toolCalls : List ToolCall
  usage : Usage

/-! ## String containment helper (for the error-message claims) -/

/-- Does the first character list start with the second? -/
def startsWithL : List Char → List Char → Bool
  | _, [] => true
  | [], _ :: _ => false
  | a :: as, b :: bs => decide (a = b) && startsWithL as bs

/-- Does the first character list contain the second as a contiguous run? -/
def hasInfixL : List Char → List Char → Bool
  | [], needle => startsWithL [] needle
  | a :: rest, needle => startsWithL (a :: rest) needle || hasInfixL rest needle

/-- Substring containment on strings. -/
def strContains (hay needle : String) : Bool :=
  hasInfixL hay.data needle.data

/-! ## HTTP layer model

The two hand-written HTTP clients (Mistral, Anthropic) read the status
code and the raw body, and attempt `json.Unmarshal` of the body into
vendor structs.  A body is therefore modelled by its raw string together
with the observables of those unmarshal attempts. -/

/-- The observables of a response body on the error path: the raw bytes as
a string, and the result of `json.Unmarshal` into the vendor error
envelope (`some m` when it succeeds with message field `m`, `none` when it
fails). -/
structure ErrorBody where
  raw : String
  envelope : Option String

/-- An HTTP response as observed by an adapter: status code, body
observables, and the result of `json.Unmarshal` of the body into the
vendor response struct (`none` when that unmarshal fails). -/
structure VendorHttp (α : Type) where
  status : Nat
  body : ErrorBody
  decoded : Option α

/-! ## Mistral adapter (`internal/llm/mistral.go`) -/

/-- MistralClient state: apiKey and model (mistral.go). -/
structure MistralClient where
  apiKey : String
  model : String

/-- NewMistralClient (mistral.go): reads MISTRAL_API_KEY from the
environment (Go's `os.Getenv` returns `""` for an unset variable, so the
environment is a total function to strings), errors when it is empty, and
defaults the model. -/
def NewMistralClient (env : String → String) (model : String) :
    Except String MistralClient :=
  let apiKey := env "MISTRAL_API_KEY"
  if apiKey = "" then
    Except.error "MISTRAL_API_KEY environment variable not set"
  else
    Except.ok { apiKey := apiKey
                model := if model = "" then "mistral-large-latest" else model }

/-- mistralFunctionCall (mistral.go): name and JSON-string arguments. -/
structure MistralFunctionCall where
  name : String
  arguments : ArgPayload

/-- mistralToolCall (mistral.go). -/
structure MistralToolCall where
  id : String
  type : String
  function : MistralFunctionCall

/-- mistralMessage (mistral.go).  `tool_call_id` and `tool_calls` carry
`json:",omitempty"` tags; their zero values (`""`, `[]`) stand for the
omitted field. -/
structure MistralMessage where
  role : String
  content : String
  toolCallID : String
  toolCalls : List MistralToolCall

/-- mistralFunction (mistral.go): a declared tool. -/
structure MistralFunction where
  name : String
  description : String
  parameters : Params

/-- mistralTool (mistral.go). -/
structure MistralTool where
  type : String
  function : MistralFunction

/-- mistralRequest (mistral.go).  `tools` and `tool_choice` carry
`json:",omitempty"`: the serialized body has a `tools` key iff the list is
nonempty, and a `tool_choice` key iff the string is nonempty.  The float
fields `temperature`/`top_p` are constants (0.7, 1.0) irrelevant to every
claim and are left out of the model. -/
structure MistralRequest where
  model : String
  messages : List MistralMessage
  tools : List MistralTool
  toolChoice : String
  maxTokens : Int

/-- Whether the serialized request body contains a `tools` field
(`json:"tools,omitempty"` omits the field exactly when the slice is
empty). -/
def mistralRequestHasToolsField (r : MistralRequest) : Bool :=
  !r.tools.isEmpty

/-- The encoding of one canonical ToolCall into Mistral's wire form
(mistral.go convertMessages): `json.Marshal(tc.Parameters)` yields a JSON
string that unmarshals back to the same map, modelled `ArgPayload.ok`. -/
def mistralEncodeToolCall (tc : ToolCall) : MistralToolCall :=
  { id := tc.id
    type := "function"
    function := { name := tc.name, arguments := ArgPayload.ok tc.parameters } }

/-- convertMessages, per element (mistral.go): the Go loop appends exactly
one mistralMessage per input Message. -/
def mistralConvertMessage (msg : Message) : MistralMessage :=
  match msg.role with
  | .system => { role := "system", content := msg.content, toolCallID := "", toolCalls := [] }
  | .user => { role := "user", content := msg.content, toolCallID := "", toolCalls := [] }
  | .assistant =>
    { role := "assistant"
      content := msg.content
      toolCallID := ""
      toolCalls :=
        if 0 < msg.toolCalls.length then msg.toolCalls.map mistralEncodeToolCall else [] }
  | .tool => { role := "tool", content := msg.content, toolCallID := msg.toolCallID, toolCalls := [] }

/-- convertTools (mistral.go). -/
def mistralConvertTools (tools : List Tool) : List MistralTool :=
  tools.map fun tool =>
    { type := "function"
      function := { name := tool.name
                    description := tool.description
                    parameters := tool.parameters } }

/-- The request built by MistralClient.Chat (mistral.go): tools and
tool_choice are set only when at least one tool is supplied. -/
def mistralBuildRequest (c : MistralClient) (messages : List Message) (tools : List Tool) :
    MistralRequest :=
  let base : MistralRequest :=
    { model := c.model
      messages := messages.map mistralConvertMessage
      tools := []
      toolChoice := ""
      maxTokens := 4096 }
  if 0 < tools.length then
    { base with tools := mistralConvertTools tools, toolChoice := "auto" }
  else
    base

/-- The message inside one choice of mistralResponse (mistral.go). -/
structure MistralRespMessage where
  role : String
  content : String
  toolCalls : List MistralToolCall

/-- One element of mistralResponse.Choices (mistral.go). -/
structure MistralChoice where
  index : Int
  message : MistralRespMessage
  finishReason : String

/-- mistralResponse.Usage (mistral.go). -/
structure MistralUsage where
  promptTokens : Int
  completionTokens : Int
  totalTokens : Int

/-- mistralResponse (mistral.go). -/
structure MistralResponse where
  id : String
  object : String
  created : Int
  model : String
  choices : List MistralChoice
  usage : MistralUsage

/-- The decoding of one wire tool call back into the canonical form
(mistral.go parseResponse): malformed arguments become the empty map. -/
def mistralDecodeToolCall (tc : MistralToolCall) : ToolCall :=
  { id := tc.id, name := tc.function.name, parameters := fieldsOf tc.function.arguments }

/-- parseResponse (mistral.go): an empty choices list yields the zero
Response; otherwise the first choice is converted. -/
def mistralParseResponse (resp : MistralResponse) : Response :=
  match resp.choices with
  | [] => { content := "", toolCalls := [], usage := { inputTokens := 0, outputTokens := 0 } }
  | choice :: _ =>
    { content := choice.message.content
      toolCalls := choice.message.toolCalls.map mistralDecodeToolCall
      usage := { inputTokens := resp.usage.promptTokens
                 outputTokens := resp.usage.completionTokens } }

/-- The error string built by MistralClient.Chat for a non-OK status
(mistral.go): the envelope message when the body unmarshals into
mistralError with a nonempty Message, else the raw body. -/
def mistralErrorString (status : Nat) (body : ErrorBody) : String :=
  match body.envelope with
  | some m =>
    if m ≠ "" then "(HTTP Error " ++ toString status ++ ") " ++ m
    else "HTTP " ++ toString status ++ ": " ++ body.raw
  | none => "HTTP " ++ toString status ++ ": " ++ body.raw

/-- MistralClient.Chat (mistral.go), with the HTTP round trip supplied as
an explicit transport (an `Except.error` models a failure of
`c.client.Do`). -/
def mistralChat (c : MistralClient) (messages : List Message) (tools : List Tool)
    (transport : MistralRequest → Except String (VendorHttp MistralResponse)) :
    Except String Response :=
  let req := mistralBuildRequest c messages tools
  match transport req with
  | .error e => .error ("request failed: " ++ e)
  | .ok resp =>
    if resp.status ≠ 200 then
      .error (mistralErrorString resp.status resp.body)
    else
      match resp.decoded with
      | none => .error "failed to parse response"
      | some r => .ok (mistralParseResponse r)

/-! ## OpenAI adapter (`internal/llm/openai.go`)

The OpenAI adapter is written against the `openai-go` SDK; the SDK param
and response structs used by the repository code are modelled below.
Fields the repository never assigns (SDK fields with omit-when-zero
serialization, such as `Tools` and `ToolChoice`) are modelled as `Option`
with `none` for the omitted state. -/

/-- OpenAIClient (openai.go) wraps the SDK client; the SDK value itself
carries no information visible to this model. -/
structure OpenAIClient where
  sdkClient : Unit

/-- NewOpenAIClient (openai.go): builds the SDK client and returns a nil
error unconditionally — the repository code never consults the
environment; credential resolution is left to the SDK.  The environment
argument exists only so claims about credential absence can be stated. -/
def NewOpenAIClient (_env : String → String) : Except String OpenAIClient :=
  Except.ok { sdkClient := () }

/-- openai.ChatCompletionMessageToolCallFunctionParam: name and JSON-string
arguments. -/
structure OpenAIFunctionCallParam where
  name : String
  arguments : ArgPayload

/-- openai.ChatCompletionMessageToolCallParam. -/
structure OpenAIToolCallParam where
  id : String
  type : String
  function : OpenAIFunctionCallParam

/-- One element of the outgoing messages union
(openai.ChatCompletionMessageParamUnion), restricted to the variants the
repository constructs.  `assistantToolCalls` models the branch that builds
`ChatCompletionAssistantMessageParam{ToolCalls: ...}` with no Content
assigned, so the serialized assistant message carries only tool calls. -/
inductive OpenAIMessageParam where
  | system : String → OpenAIMessageParam
  | user : String → OpenAIMessageParam
  | assistant : String → OpenAIMessageParam
  | assistantToolCalls : List OpenAIToolCallParam → OpenAIMessageParam
  | toolResult : String → String → OpenAIMessageParam

/-- openai.FunctionDefinitionParam. -/
structure OpenAIFunctionDef where
  name : String
  description : String
  parameters : Params

/-- openai.ChatCompletionToolParam. -/
structure OpenAIToolParam where
  type : String
  function : OpenAIFunctionDef

/-- openai.ChatCompletionNewParams, restricted to the fields the
repository touches.  `tools` and `toolChoice` are omitted from the
serialized request when `none`. -/
structure OpenAIParams where
  messages : List OpenAIMessageParam
  model : String
  tools : Option (List OpenAIToolParam)
  toolChoice : Option String

/-- Whether the serialized request body contains a `tools` field. -/
def openaiParamsHasToolsField (p : OpenAIParams) : Bool :=
  p.tools.isSome

/-- The encoding of one canonical ToolCall for an assistant message
(openai.go Chat, STEP 1): `json.Marshal(tc.Parameters)` yields a JSON
string that unmarshals back to the same map, modelled `ArgPayload.ok`. -/
def openaiEncodeToolCall (tc : ToolCall) : OpenAIToolCallParam :=
  { id := tc.id
    type := "function"
    function := { name := tc.name, arguments := ArgPayload.ok tc.parameters } }

/-- The message conversion of openai.go Chat STEP 1, per element: the Go
loop appends exactly one union member per input Message. -/
def openaiConvertMessage (msg : Message) : OpenAIMessageParam :=
  match msg.role with
  | .system => .system msg.content
  | .user => .user msg.content
  | .assistant =>
    if 0 < msg.toolCalls.length then
      .assistantToolCalls (msg.toolCalls.map openaiEncodeToolCall)
    else
      .assistant msg.content
  | .tool => .toolResult msg.content msg.toolCallID

/-- Tool conversion of openai.go Chat STEP 2. -/
def openaiConvertTool (tool : Tool) : OpenAIToolParam :=
  { type := "function"
    function := { name := tool.name
                  description := tool.description
                  parameters := tool.parameters } }

/-- The params built by openai.go Chat STEP 3: `Tools` is assigned only
when the converted list is nonempty; `ToolChoice` is never assigned. -/
def openaiBuildParams (messages : List Message) (tools : List Tool) : OpenAIParams :=
  let openaiTools := tools.map openaiConvertTool
  { messages := messages.map openaiConvertMessage
    model := "gpt-4o"
    tools := if 0 < openaiTools.length then some openaiTools else none
    toolChoice := none }

/-- The function part of a tool call on the SDK response. -/
structure OpenAIRespFunction where
  name : String
  arguments : ArgPayload

/-- A tool call on the SDK response. -/
structure OpenAIRespToolCall where
  id : String
  function : OpenAIRespFunction

/-- The message of one choice of the SDK response. -/
structure OpenAIRespMessage where
  content : String
  toolCalls : List OpenAIRespToolCall

/-- One element of the SDK response's Choices. -/
structure OpenAIChoice where
  message : OpenAIRespMessage

/-- The usage block of the SDK response. -/
structure OpenAIUsage where
  promptTokens : Int
  completionTokens : Int

/-- The SDK chat-completion response, restricted to the fields openai.go
reads. -/
structure OpenAIResp where
  choices : List OpenAIChoice
  usage : OpenAIUsage

/-- The outcome of a Go function call that may return a value, return an
error, or panic. -/
inductive GoOutcome (α : Type) where
  | ok : α → GoOutcome α
  | err : String → GoOutcome α
  | panics : GoOutcome α

/-- The decoding of one SDK tool call back into the canonical form
(openai.go Chat STEP 4): malformed arguments become the empty map. -/
def openaiDecodeToolCall (tc : OpenAIRespToolCall) : ToolCall :=
  { id := tc.id, name := tc.function.name, parameters := fieldsOf tc.function.arguments }

/-- OpenAIClient.Chat (openai.go), with the SDK call supplied as an
explicit transport.  STEP 4 reads `resp.Choices[0]` without a bounds
check: on an empty choices slice the Go code panics with an
index-out-of-range runtime error, modelled `GoOutcome.panics`. -/
def openaiChat (messages : List Message) (tools : List Tool)
    (transport : OpenAIParams → Except String OpenAIResp) : GoOutcome Response :=
  let params := openaiBuildParams messages tools
  match transport params with
  | .error e => .err ("request failed: " ++ e)
  | .ok resp =>
    match resp.choices with
    | [] => .panics
    | choice :: _ =>
      .ok { content := choice.message.content
            toolCalls := choice.message.toolCalls.map openaiDecodeToolCall
            usage := { inputTokens := resp.usage.promptTokens
                       outputTokens := resp.usage.completionTokens } }

/-! ## Anthropic adapter (`AnthropicClient`, in the llm package) -/

/-- AnthropicClient state (anthropic client source). -/
structure AnthropicClient where
  apikey : String
  model : String

/-- NewAnthropicClient: reads ANTHROPIC_API_KEY from the environment,
errors when it is empty, and defaults the model. -/
def NewAnthropicClient (env : String → String) (model : String) :
    Except String AnthropicClient :=
  let apiKey := env "ANTHROPIC_API_KEY"
  if apiKey = "" then
    Except.error "ANTHROPIC_API_KEY environment variable not set"
  else
    Except.ok { apikey := apiKey
                model := if model = "" then "claude-sonnet-4-20250514" else model }

/-- A content block of an outgoing Anthropic message (buildRequest builds
these as `map[string]interface{}` literals with a `type` discriminator). -/
inductive AnthropicBlock where
  | text : String → AnthropicBlock
  | toolUse : String → String → Params → AnthropicBlock
  | toolResult : String → String → AnthropicBlock

/-- The content of an outgoing Anthropic message: either a plain string or
a list of typed blocks. -/
inductive AnthropicContent where
  | text : String → AnthropicContent
  | blocks : List AnthropicBlock → AnthropicContent

/-- One outgoing Anthropic message. -/
structure AnthropicMsg where
  role : String
  content : AnthropicContent

/-- One declared tool in Anthropic's shape (convertTools). -/
structure AnthropicToolDef where
  name : String
  description : String
  inputSchema : Params

/-- The request map built by buildRequest, with the optional keys
(`system`, `tools`) modelled as `Option`: `none` means the key is absent
from the serialized body. -/
structure AnthropicRequest where
  model : String
  maxTokens : Int
  messages : List AnthropicMsg
  system : Option String
  tools : Option (List AnthropicToolDef)

/-- Whether the serialized request body contains a `tools` key. -/
def anthropicRequestHasToolsField (r : AnthropicRequest) : Bool :=
  r.tools.isSome

/-- The encoding of one canonical ToolCall as a `tool_use` block
(buildRequest): Anthropic takes the parameter map as a structured value. -/
def anthropicEncodeToolCall (tc : ToolCall) : AnthropicBlock :=
  AnthropicBlock.toolUse tc.id tc.name tc.parameters

/-- The string sent for a canonical role (`string(msg.Role)`). -/
def roleString : Role → String
  | .system => "system"
  | .user => "user"
  | .assistant => "assistant"
  | .tool => "tool"

/-- The conversion of one non-system Message inside buildRequest's loop. -/
def anthropicConvertMsg (msg : Message) : AnthropicMsg :=
  if msg.role = Role.tool then
    { role := "user"
      content := AnthropicContent.blocks
        [AnthropicBlock.toolResult msg.toolCallID msg.content] }
  else if msg.role = Role.assistant ∧ 0 < msg.toolCalls.length then
    { role := roleString msg.role
      content := AnthropicContent.blocks
        ((if msg.content ≠ "" then [AnthropicBlock.text msg.content] else [])
          ++ msg.toolCalls.map anthropicEncodeToolCall) }
  else
    { role := roleString msg.role, content := AnthropicContent.text msg.content }

/-- The system/conversation split of buildRequest's loop: the mutable
`system` variable is overwritten by each system-role message (so the last
one wins) and every other message is converted in order. -/
def anthropicCollect : List Message → String → String × List AnthropicMsg
  | [], system => (system, [])
  | msg :: rest, system =>
    if msg.role = Role.system then
      anthropicCollect rest msg.content
    else
      let r := anthropicCollect rest system
      (r.1, anthropicConvertMsg msg :: r.2)

/-- convertTools (Anthropic). -/
def anthropicConvertTools (tools : List Tool) : List AnthropicToolDef :=
  tools.map fun tool =>
    { name := tool.name, description := tool.description, inputSchema := tool.parameters }

/-- buildRequest: the `system` key is set only when the collected system
string is nonempty, the `tools` key only when at least one tool is
supplied. -/
def anthropicBuildRequest (c : AnthropicClient) (messages : List Message) (tools : List Tool) :
    AnthropicRequest :=
  let collected := anthropicCollect messages ""
  { model := c.model
    maxTokens := 4096
    messages := collected.2
    system := if collected.1 ≠ "" then some collected.1 else none
    tools := if 0 < tools.length then some (anthropicConvertTools tools) else none }

/-- One decoded content block of the Anthropic response body
(parseResponseBody's anonymous struct): a flat record with a `type`
discriminator; `input` is a `json.RawMessage` modelled by its unmarshal
observable. -/
structure AnthropicRespBlock where
  type : String
  text : String
  id : String
  name : String
  input : ArgPayload

/-- The usage block of the Anthropic response. -/
structure AnthropicUsage where
  inputTokens : Int
  outputTokens : Int

/-- The decoded Anthropic response body (parseResponseBody). -/
structure AnthropicAPIResp where
  content : List AnthropicRespBlock
  stopReason : String
  usage : AnthropicUsage

/-- The decoding of one `tool_use` block into the canonical form
(parseResponseBody): malformed input becomes the empty map. -/
def anthropicDecodeBlockCall (b : AnthropicRespBlock) : ToolCall :=
  { id := b.id, name := b.name, parameters := fieldsOf b.input }

/-- One step of parseResponseBody's switch over content blocks: `text`
blocks extend the content, `tool_use` blocks append a ToolCall, anything
else is ignored. -/
def anthropicParseStep (acc : Response) (b : AnthropicRespBlock) : Response :=
  if b.type = "text" then
    { acc with content := acc.content ++ b.text }
  else if b.type = "tool_use" then
    { acc with toolCalls := acc.toolCalls ++ [anthropicDecodeBlockCall b] }
  else
    acc

/-- parseResponseBody after a successful unmarshal of the body. -/
def anthropicParseDecoded (resp : AnthropicAPIResp) : Response :=
  resp.content.foldl anthropicParseStep
    { content := ""
      toolCalls := []
      usage := { inputTokens := resp.usage.inputTokens
                 outputTokens := resp.usage.outputTokens } }

/-- AnthropicClient.Chat, with the HTTP round trip supplied as an explicit
transport.  A non-OK status is reported with the raw body only — this
adapter never unmarshals an error envelope. -/
def anthropicChat (c : AnthropicClient) (messages : List Message) (tools : List Tool)
    (transport : AnthropicRequest → Except String (VendorHttp AnthropicAPIResp)) :
    Except String Response :=
  let req := anthropicBuildRequest c messages tools
  match transport req with
  | .error e => .error ("request failed: " ++ e)
  | .ok resp =>
    if resp.status ≠ 200 then
      .error ("API error (status " ++ toString resp.status ++ "): " ++ resp.body.raw)
    else
      match resp.decoded with
      | none => .error "failed to parse response"
      | some r => .ok (anthropicParseDecoded r)

/-! ## Shared projections and fixtures -/

/-- Whether an Except value is an error. -/
def exceptIsError {ε α : Type} : Except ε α → Bool
  | .error _ => true
  | .ok _ => false

/-- The tool calls of a successful GoOutcome. -/
def goToolCalls : GoOutcome Response → Option (List ToolCall)
  | .ok r => some r.toolCalls
  | .err _ => none
  | .panics => none

/-- The tool calls of a successful Except result. -/
def exToolCalls : Except String Response → Option (List ToolCall)
  | .ok r => some r.toolCalls
  | .error _ => none

/-- Pointwise relation between a vendor list and the decoded tool calls of
an optional result: the result must be present and relate elementwise. -/
def OptForall₂ {α β : Type} (R : α → β → Prop) (xs : List α) : Option (List β) → Prop
  | some ys => List.Forall₂ R xs ys
  | none => False

/-- A Mistral HTTP success carrying a decoded response. -/
def mistralOkHttp (r : MistralResponse) : VendorHttp MistralResponse :=
  { status := 200, body := { raw := "", envelope := none }, decoded := some r }

/-- An Anthropic HTTP success carrying a decoded response. -/
def anthropicOkHttp (r : AnthropicAPIResp) : VendorHttp AnthropicAPIResp :=
  { status := 200, body := { raw := "", envelope := none }, decoded := some r }

/-- A concrete Mistral response with no choices but nonzero reported token
counts. -/
def mresp0 : MistralResponse :=
  { id := "r0"
    object := "chat.completion"
    created := 0
    model := "mistral-large-latest"
    choices := []
    usage := { promptTokens := 5, completionTokens := 7, totalTokens := 12 } }

/-- A concrete Mistral client value. -/
def client0M : MistralClient :=
  { apiKey := "k", model := "mistral-large-latest" }

/-- A concrete Anthropic client value. -/
def client0A : AnthropicClient :=
  { apikey := "k", model := "claude-sonnet-4-20250514" }

/-- A concrete declared tool. -/
def tool0 : Tool :=
  { name := "queryFindings"
    description := "query stored findings"
    parameters := [("severity", Json.str "CRITICAL")] }

/-- A canonical system message with the given content. -/
def sysMsg (c : String) : Message :=
  { role := Role.system, content := c, toolCallID := "", toolCalls := [] }

/-- A concrete canonical tool call. -/
def toolCall0 : ToolCall :=
  { id := "t1", name := "queryFindings", parameters := [("severity", Json.str "CRITICAL")] }

/-- A concrete OpenAI response whose choices list is empty but whose usage
block is populated. -/
def oresp0 : OpenAIResp :=
  { choices := [], usage := { promptTokens := 3, completionTokens := 4 } }

/-- The content of the last system-role message of a sequence, or `""`
when there is none: the final value of buildRequest's overwritten
`system` variable. -/
def lastSystemContent (messages : List Message) : String :=
  messages.foldl (fun acc m => if m.role = Role.system then m.content else acc) ""

/-- The human-readable message the error envelope contains, in the sense
of the spec: the envelope must parse and carry a nonempty message. -/
def envelopeMessageOf (body : ErrorBody) : Option String :=
  match body.envelope with
  | some m => if m ≠ "" then some m else none
  | none => none

/-- The spec's reading of a protocol error: the error text carries the
numeric status code, and the envelope's human-readable message when the
envelope contains one, falling back to the raw response body otherwise. -/
def specErrorCarries (status : Nat) (body : ErrorBody) (e : String) : Prop :=
  strContains e (toString status) = true
  ∧ strContains e ((envelopeMessageOf body).getD body.raw) = true

/-- A vendor error body whose envelope message decodes a JSON escape: the
raw bytes spell out a message field containing the text
rate-backslash-u0020-limited, and `json.Unmarshal` into the error
envelope decodes the u0020 escape to a space, yielding the message
"rate limited" — which therefore does not occur literally in the raw
body. -/
def body429 : ErrorBody :=
  { raw := "\x7b\"message\":\"rate\\u0020limited\"\x7d"
    envelope := some "rate limited" }

/-- The vendor error body of the spec's Scenario 4: raw bytes
`{"message":"rate limited"}`, which unmarshal into the error envelope
with message "rate limited". -/
def body429plain : ErrorBody :=
  { raw := "\x7b\"message\":\"rate limited\"\x7d"
    envelope := some "rate limited" }

/-- The claim's per-call preservation relation for an OpenAI wire call:
the canonical call carries the same id and name, and its parameter map is
exactly the decoded argument mapping the wire call carries. -/
def preservesOpenAICall (tc : OpenAIRespToolCall) (out : ToolCall) : Prop :=
  out.id = tc.id ∧ out.name = tc.function.name
    ∧ tc.function.arguments = ArgPayload.ok out.parameters

/-- The claim's per-call preservation relation for a Mistral wire call. -/
def preservesMistralCall (tc : MistralToolCall) (out : ToolCall) : Prop :=
  out.id = tc.id ∧ out.name = tc.function.name
    ∧ tc.function.arguments = ArgPayload.ok out.parameters

/-- The claim's per-call preservation relation for an Anthropic tool_use
block. -/
def preservesAnthropicCall (b : AnthropicRespBlock) (out : ToolCall) : Prop :=
  out.id = b.id ∧ out.name = b.name ∧ b.input = ArgPayload.ok out.parameters

/-- A well-formed OpenAI wire tool call. -/
def otcOk : OpenAIRespToolCall :=
  { id := "t1"
    function := { name := "queryFindings"
                  arguments := ArgPayload.ok [("severity", Json.str "CRITICAL")] } }

/-- An OpenAI wire tool call whose argument string fails to unmarshal. -/
def otcBad : OpenAIRespToolCall :=
  { id := "t9", function := { name := "badcall", arguments := ArgPayload.bad } }

/-- A choice carrying one well-formed tool call. -/
def och0 : OpenAIChoice :=
  { message := { content := "ok", toolCalls := [otcOk] } }

/-- A choice carrying a malformed tool call followed by a well-formed
one. -/
def och2 : OpenAIChoice :=
  { message := { content := "", toolCalls := [otcBad, otcOk] } }

/-- A well-formed Mistral wire tool call. -/
def mtcOk : MistralToolCall :=
  { id := "t1"
    type := "function"
    function := { name := "queryFindings"
                  arguments := ArgPayload.ok [("severity", Json.str "CRITICAL")] } }

/-- A Mistral wire tool call whose argument string fails to unmarshal. -/
def mtcBad : MistralToolCall :=
  { id := "t9", type := "function", function := { name := "badcall", arguments := ArgPayload.bad } }

/-- A Mistral choice carrying one well-formed tool call. -/
def mch0 : MistralChoice :=
  { index := 0
    message := { role := "assistant", content := "", toolCalls := [mtcOk] }
    finishReason := "tool_calls" }

/-- A Mistral choice carrying a malformed tool call followed by a
well-formed one. -/
def mch2 : MistralChoice :=
  { index := 0
    message := { role := "assistant", content := "", toolCalls := [mtcBad, mtcOk] }
    finishReason := "tool_calls" }

/-- A well-formed Anthropic tool_use block. -/
def ablockOk : AnthropicRespBlock :=
  { type := "tool_use"
    text := ""
    id := "t2"
    name := "x"
    input := ArgPayload.ok [("severity", Json.str "CRITICAL")] }

/-- A text block (its unused input observable is irrelevant). -/
def ablockText : AnthropicRespBlock :=
  { type := "text", text := "hello", id := "", name := "", input := ArgPayload.bad }

/-- An Anthropic tool_use block whose input fails to unmarshal — the
spec's Scenario 3 (`input` is the JSON string "not-json"). -/
def ablockBad : AnthropicRespBlock :=
  { type := "tool_use", text := "", id := "t9", name := "badcall", input := ArgPayload.bad }

/-- An Anthropic response with a text block and a well-formed tool_use
block. -/
def aresp1 : AnthropicAPIResp :=
  { content := [ablockText, ablockOk]
    stopReason := "tool_use"
    usage := { inputTokens := 1, outputTokens := 2 } }

/-- An Anthropic response with a malformed tool_use block followed by a
well-formed one. -/
def aresp2 : AnthropicAPIResp :=
  { content := [ablockBad, ablockOk]
    stopReason := "tool_use"
    usage := { inputTokens := 1, outputTokens := 2 } }

/-! ## Claim C9 -/

/-- C9: the Mistral adapter maps a decoded vendor response with zero
choices to the zero Response — empty content, no tool calls, and zero
Usage — discarding any token counts the body reports. -/
theorem c9_empty_choices_zero_response (resp : MistralResponse)
    (h : resp.choices = []) :
    mistralParseResponse resp
      = { content := "", toolCalls := [], usage := { inputTokens := 0, outputTokens := 0 } } := by
  unfold mistralParseResponse
  rw [h]

/-- Witness for C9 at a response reporting 5 prompt and 7 completion
tokens. -/
theorem c9_witness :
    mistralParseResponse mresp0
      = { content := "", toolCalls := [], usage := { inputTokens := 0, outputTokens := 0 } } :=
  c9_empty_choices_zero_response mresp0 rfl

/-! ## Helper lemmas -/

/-- Every list starts with the empty list. -/
theorem startsWithL_nil (t : List Char) : startsWithL t [] = true := by
  cases t <;> rfl

/-- A list starts with itself followed by anything. -/
theorem startsWithL_self_append (b c : List Char) : startsWithL (b ++ c) b = true := by
  induction b with
  | nil => simpa using startsWithL_nil c
  | cons x xs ih => simp [startsWithL, ih]

/-- A match at the front is a containment. -/
theorem hasInfixL_here (t needle : List Char) (h : startsWithL t needle = true) :
    hasInfixL t needle = true := by
  cases t with
  | nil => exact h
  | cons a rest => simp [hasInfixL, h]

/-- Containment survives prepending. -/
theorem hasInfixL_skip (a t needle : List Char) (h : hasInfixL t needle = true) :
    hasInfixL (a ++ t) needle = true := by
  induction a with
  | nil => exact h
  | cons x xs ih => simp [hasInfixL, ih]

/-- A string contains the head of its right append factor. -/
theorem strContains_mid (a b c : String) : strContains (a ++ (b ++ c)) b = true := by
  unfold strContains
  have hd : (a ++ (b ++ c)).data = a.data ++ (b.data ++ c.data) := by
    simp [String.data_append]
  rw [hd]
  exact hasInfixL_skip _ _ _ (hasInfixL_here _ _ (startsWithL_self_append _ _))

/-- A string contains its final append factor. -/
theorem strContains_last (a b : String) : strContains (a ++ b) b = true := by
  unfold strContains
  rw [String.data_append]
  refine hasInfixL_skip _ _ _ (hasInfixL_here _ _ ?_)
  have h := startsWithL_self_append b.data ([] : List Char)
  simpa using h

/-- The first component of the collect loop is the last system message's
content, seeded by the accumulator. -/
theorem anthropicCollect_fst (messages : List Message) (s : String) :
    (anthropicCollect messages s).1
      = messages.foldl (fun acc m => if m.role = Role.system then m.content else acc) s := by
  induction messages generalizing s with
  | nil => rfl
  | cons m rest ih =>
    by_cases h : m.role = Role.system
    · simp [anthropicCollect, h, ih]
    · simp [anthropicCollect, h, ih]

/-- The second component of the collect loop converts exactly the
non-system messages, in order. -/
theorem anthropicCollect_snd (messages : List Message) (s : String) :
    (anthropicCollect messages s).2
      = (messages.filter fun m => decide (m.role ≠ Role.system)).map anthropicConvertMsg := by
  induction messages generalizing s with
  | nil => rfl
  | cons m rest ih =>
    by_cases h : m.role = Role.system
    · simp [anthropicCollect, h, ih]
    · simp [anthropicCollect, h, ih]

/-- Decoding a list of well-formed OpenAI wire calls preserves id, name
and the carried argument mapping, pointwise and in order. -/
theorem forall₂_openai_decode (calls : List OpenAIRespToolCall)
    (h : ∀ tc ∈ calls, tc.function.arguments.isOk = true) :
    List.Forall₂ preservesOpenAICall calls (calls.map openaiDecodeToolCall) := by
  induction calls with
  | nil => exact List.Forall₂.nil
  | cons tc rest ih =>
    refine List.Forall₂.cons ?_ (ih fun tc2 hm => h tc2 (List.mem_cons_of_mem _ hm))
    have htc := h tc (List.mem_cons_self tc rest)
    cases ha : tc.function.arguments with
    | ok f => exact ⟨rfl, rfl, by simp [openaiDecodeToolCall, ha, fieldsOf]⟩
    | bad => simp [ArgPayload.isOk, ha] at htc

/-- Decoding a list of well-formed Mistral wire calls preserves id, name
and the carried argument mapping, pointwise and in order. -/
theorem forall₂_mistral_decode (calls : List MistralToolCall)
    (h : ∀ tc ∈ calls, tc.function.arguments.isOk = true) :
    List.Forall₂ preservesMistralCall calls (calls.map mistralDecodeToolCall) := by
  induction calls with
  | nil => exact List.Forall₂.nil
  | cons tc rest ih =>
    refine List.Forall₂.cons ?_ (ih fun tc2 hm => h tc2 (List.mem_cons_of_mem _ hm))
    have htc := h tc (List.mem_cons_self tc rest)
    cases ha : tc.function.arguments with
    | ok f => exact ⟨rfl, rfl, by simp [mistralDecodeToolCall, ha, fieldsOf]⟩
    | bad => simp [ArgPayload.isOk, ha] at htc

/-- Decoding a list of well-formed Anthropic tool_use blocks preserves
id, name and the carried argument mapping, pointwise and in order. -/
theorem forall₂_anthropic_decode (l : List AnthropicRespBlock)
    (h : ∀ b ∈ l, b.input.isOk = true) :
    List.Forall₂ preservesAnthropicCall l (l.map anthropicDecodeBlockCall) := by
  induction l with
  | nil => exact List.Forall₂.nil
  | cons b rest ih =>
    refine List.Forall₂.cons ?_ (ih fun b2 hm => h b2 (List.mem_cons_of_mem _ hm))
    have hb := h b (List.mem_cons_self b rest)
    cases ha : b.input with
    | ok f => exact ⟨rfl, rfl, by simp [anthropicDecodeBlockCall, ha, fieldsOf]⟩
    | bad => simp [ArgPayload.isOk, ha] at hb

/-- The tool calls accumulated by the Anthropic block fold are exactly the
decoded tool_use blocks, in order. -/
theorem anthropicParse_toolCalls_aux (blocks : List AnthropicRespBlock) (acc : Response) :
    (blocks.foldl anthropicParseStep acc).toolCalls
      = acc.toolCalls
        ++ (blocks.filter fun b => decide (b.type = "tool_use")).map anthropicDecodeBlockCall := by
  induction blocks generalizing acc with
  | nil => simp
  | cons b rest ih =>
    rw [List.foldl_cons, ih]
    by_cases h1 : b.type = "text"
    · have h2 : ¬ b.type = "tool_use" := by rw [h1]; decide
      simp [anthropicParseStep, h1, h2, List.filter_cons]
    · by_cases h2 : b.type = "tool_use"
      · simp [anthropicParseStep, h1, h2, List.filter_cons]
      · simp [anthropicParseStep, h1, h2, List.filter_cons]

/-- The toolCalls of a decoded Anthropic body are the decoded tool_use
blocks. -/
theorem anthropicParseDecoded_toolCalls (resp : AnthropicAPIResp) :
    (anthropicParseDecoded resp).toolCalls
      = (resp.content.filter fun b => decide (b.type = "tool_use")).map
          anthropicDecodeBlockCall := by
  unfold anthropicParseDecoded
  rw [anthropicParse_toolCalls_aux]
  simp

/-! ## Claim C3 -/

/-- C3: calling an adapter with an empty Tool sequence produces an
outbound request whose serialized body contains no tools field at all, for
all three adapters. -/
theorem c3_empty_tools_omitted (c : MistralClient) (a : AnthropicClient)
    (messages : List Message) :
    openaiParamsHasToolsField (openaiBuildParams messages []) = false
    ∧ mistralRequestHasToolsField (mistralBuildRequest c messages []) = false
    ∧ anthropicRequestHasToolsField (anthropicBuildRequest a messages []) = false := by
  refine ⟨rfl, ?_, rfl⟩
  simp [mistralRequestHasToolsField, mistralBuildRequest]

/-! ## Claim C4 -/

/-- C4 counterexample: with an environment in which every variable is
unset (Go's `os.Getenv` yields `""` for all names, so no credential is
present), the OpenAI-style constructor still succeeds instead of
returning a configuration error. -/
theorem c4_openai_ctor_never_errs :
    NewOpenAIClient (fun _ => "") = Except.ok { sdkClient := () } := rfl

/-- C4 amended: the Mistral-style and Anthropic-style constructors read
MISTRAL_API_KEY / ANTHROPIC_API_KEY and return a configuration error
exactly when the value is empty; the OpenAI-style constructor never
returns an error, delegating credential resolution to the vendor SDK. -/
theorem c4_ctor_error_iff_missing_key (env : String → String) (model : String) :
    exceptIsError (NewMistralClient env model) = (env "MISTRAL_API_KEY" == "")
    ∧ exceptIsError (NewAnthropicClient env model) = (env "ANTHROPIC_API_KEY" == "")
    ∧ exceptIsError (NewOpenAIClient env) = false := by
  refine ⟨?_, ?_, rfl⟩
  · by_cases h : env "MISTRAL_API_KEY" = "" <;>
      simp [NewMistralClient, exceptIsError, h]
  · by_cases h : env "ANTHROPIC_API_KEY" = "" <;>
      simp [NewAnthropicClient, exceptIsError, h]

/-! ## Claim C7 -/

/-- C7 counterexample: the OpenAI-style adapter, called with a nonempty
tools sequence, does not set tool_choice at all — in particular not to
"auto". -/
theorem c7_openai_no_toolchoice :
    (openaiBuildParams [] [tool0]).toolChoice = none
    ∧ (openaiBuildParams [] [tool0]).toolChoice ≠ some "auto" :=
  ⟨rfl, by decide⟩

/-- C7 amended: with a nonempty tools sequence the Mistral-style adapter
sets tool_choice to "auto" in the outbound request, while the
OpenAI-style adapter leaves tool_choice unset. -/
theorem c7_toolchoice_auto (c : MistralClient) (messages : List Message)
    (tools : List Tool) (h : tools ≠ []) :
    (mistralBuildRequest c messages tools).toolChoice = "auto"
    ∧ (openaiBuildParams messages tools).toolChoice = none := by
  have hl : 0 < tools.length := List.length_pos.mpr h
  exact ⟨by simp [mistralBuildRequest, hl], rfl⟩

/-- Witness for C7 at one declared tool. -/
theorem c7_witness :
    (mistralBuildRequest client0M [] [tool0]).toolChoice = "auto"
    ∧ (openaiBuildParams [] [tool0]).toolChoice = none :=
  c7_toolchoice_auto client0M [] [tool0] (List.cons_ne_nil tool0 [])

/-! ## Claim C8 -/

/-- C8: contrary to the claim, the OpenAI-style adapter's response
handling is not total — a successfully decoded vendor response whose
choices list is empty makes Chat index the first choice out of bounds
(a Go index-out-of-range panic), instead of yielding a Response or an
error.  The Mistral-style adapter guards this same case explicitly, so
the unguarded access is a slip in the code. -/
theorem c8_openai_empty_choices_panics :
    openaiChat [] [] (fun _ => Except.ok oresp0) = GoOutcome.panics := rfl

/-! ## Claim C10 -/

/-- C10: encoding an assistant Message that has both nonempty Content and
a nonempty ToolCalls sequence: the OpenAI-style adapter emits only the
tool calls (the text content is omitted from the outbound request), while
the Anthropic-style adapter keeps the content as a text block ahead of the
tool_use blocks. -/
theorem c10_assistant_content_encoding (content tid : String) (tcs : List ToolCall)
    (hc : content ≠ "") (ht : tcs ≠ []) :
    openaiConvertMessage
        { role := Role.assistant, content := content, toolCallID := tid, toolCalls := tcs }
      = OpenAIMessageParam.assistantToolCalls (tcs.map openaiEncodeToolCall)
    ∧ anthropicConvertMsg
        { role := Role.assistant, content := content, toolCallID := tid, toolCalls := tcs }
      = { role := "assistant"
          content := AnthropicContent.blocks
            (AnthropicBlock.text content :: tcs.map anthropicEncodeToolCall) } := by
  have hl : 0 < tcs.length := List.length_pos.mpr ht
  constructor
  · simp [openaiConvertMessage, hl]
  · simp [anthropicConvertMsg, hl, hc, roleString]

/-! ## Claim C5 -/

/-- C5 counterexample: at HTTP status 429 with a body whose envelope
message "rate limited" arises from a JSON escape and so does not occur
literally in the raw bytes, the Anthropic-style adapter's error — which
is built from the raw body without inspecting the envelope — does not
carry the envelope's human-readable message, contradicting the claim for
that adapter. -/
theorem c5_anthropic_ignores_envelope :
    anthropicChat client0A [] []
        (fun _ => Except.ok { status := 429, body := body429, decoded := none })
      = Except.error ("API error (status 429): " ++ body429.raw)
    ∧ ¬ specErrorCarries 429 body429 ("API error (status 429): " ++ body429.raw) := by
  constructor
  · rfl
  · intro h
    have h2 : strContains ("API error (status 429): " ++ body429.raw)
        "rate limited" = true := h.2
    exact absurd h2 (by decide)

/-- C5 amended: for a non-success status the Mistral-style adapter returns
an error built from the envelope message when the body parses as the
error envelope with a nonempty message, else from the raw body — an error
that carries the status code and message/raw body exactly as the claim
reads it; the Anthropic-style adapter returns an error carrying the
status code and the raw body, never inspecting the envelope.  The
OpenAI-style adapter's non-success handling lives inside the vendor SDK,
outside this repository. -/
theorem c5_error_status_and_message (mc : MistralClient) (a : AnthropicClient)
    (messages : List Message) (tools : List Tool) (st : Nat) (body : ErrorBody)
    (dm : Option MistralResponse) (da : Option AnthropicAPIResp) (h : st ≠ 200) :
    mistralChat mc messages tools
        (fun _ => Except.ok { status := st, body := body, decoded := dm })
      = Except.error (mistralErrorString st body)
    ∧ specErrorCarries st body (mistralErrorString st body)
    ∧ anthropicChat a messages tools
        (fun _ => Except.ok { status := st, body := body, decoded := da })
      = Except.error ("API error (status " ++ toString st ++ "): " ++ body.raw)
    ∧ strContains ("API error (status " ++ toString st ++ "): " ++ body.raw)
        (toString st) = true
    ∧ strContains ("API error (status " ++ toString st ++ "): " ++ body.raw)
        body.raw = true := by
  refine ⟨?_, ⟨?_, ?_⟩, ?_, ?_, strContains_last _ _⟩
  · simp [mistralChat, h]
  · -- the error carries the status code
    cases hb : body.envelope with
    | some m =>
      by_cases hm : m = ""
      · simp only [mistralErrorString, hb, hm, ne_eq, not_true_eq_false,
          if_false, String.append_assoc]
        exact strContains_mid _ _ _
      · simp only [mistralErrorString, hb, hm, ne_eq, not_false_eq_true,
          if_true, String.append_assoc]
        exact strContains_mid _ _ _
    | none =>
      simp only [mistralErrorString, hb, String.append_assoc]
      exact strContains_mid _ _ _
  · -- the error carries the envelope message, else the raw body
    cases hb : body.envelope with
    | some m =>
      by_cases hm : m = ""
      · simp only [envelopeMessageOf, mistralErrorString, hb, hm, ne_eq,
          not_true_eq_false, if_false, Option.getD_none]
        exact strContains_last _ _
      · simp only [envelopeMessageOf, mistralErrorString, hb, hm, ne_eq,
          not_false_eq_true, if_true, Option.getD_some]
        exact strContains_last _ _
    | none =>
      simp only [envelopeMessageOf, mistralErrorString, hb, Option.getD_none]
      exact strContains_last _ _
  · simp [anthropicChat, h]
  · simp only [String.append_assoc]
    exact strContains_mid _ _ _

/-- Witness for C5 at the spec's Scenario 4: status 429, body
spelling out a message field with the text "rate limited". -/
theorem c5_witness :
    mistralChat client0M [] []
        (fun _ => Except.ok { status := 429, body := body429plain, decoded := none })
      = Except.error (mistralErrorString 429 body429plain)
    ∧ specErrorCarries 429 body429plain (mistralErrorString 429 body429plain)
    ∧ anthropicChat client0A [] []
        (fun _ => Except.ok { status := 429, body := body429plain, decoded := none })
      = Except.error ("API error (status " ++ toString 429 ++ "): " ++ body429plain.raw)
    ∧ strContains ("API error (status " ++ toString 429 ++ "): " ++ body429plain.raw)
        (toString 429) = true
    ∧ strContains ("API error (status " ++ toString 429 ++ "): " ++ body429plain.raw)
        body429plain.raw = true :=
  c5_error_status_and_message client0M client0A [] [] 429 body429plain none none
    (by decide)

/-! ## Claim C6 -/

/-- C6 counterexample: with two system messages "a" then "b", the
Anthropic-style adapter sends the LAST system message's content as the
top-level system field, not the first as the claim states. -/
theorem c6_last_system_wins :
    (anthropicBuildRequest client0A [sysMsg "a", sysMsg "b"] []).system = some "b"
    ∧ (anthropicBuildRequest client0A [sysMsg "a", sysMsg "b"] []).system ≠ some "a" :=
  ⟨rfl, by decide⟩

/-- C6 amended: the Anthropic-style adapter removes every system-role
message from the outgoing message list and sends the last system
message's content as the top-level system field, omitting the field when
no system message exists or when that content is empty; the OpenAI-style
and Mistral-style adapters keep system messages inline, in place, with
role "system". -/
theorem c6_system_handling (mc : MistralClient) (a : AnthropicClient)
    (messages : List Message) (tools : List Tool) (cs tid : String)
    (tcs : List ToolCall) :
    (anthropicBuildRequest a messages tools).messages
      = (messages.filter fun m => decide (m.role ≠ Role.system)).map anthropicConvertMsg
    ∧ (anthropicBuildRequest a messages tools).system
      = (if lastSystemContent messages = "" then none
         else some (lastSystemContent messages))
    ∧ (openaiBuildParams messages tools).messages = messages.map openaiConvertMessage
    ∧ openaiConvertMessage
        { role := Role.system, content := cs, toolCallID := tid, toolCalls := tcs }
      = OpenAIMessageParam.system cs
    ∧ (mistralBuildRequest mc messages tools).messages = messages.map mistralConvertMessage
    ∧ mistralConvertMessage
        { role := Role.system, content := cs, toolCallID := tid, toolCalls := tcs }
      = { role := "system", content := cs, toolCallID := "", toolCalls := [] } := by
  refine ⟨?_, ?_, rfl, rfl, ?_, rfl⟩
  · simp [anthropicBuildRequest, anthropicCollect_snd]
  · simp only [anthropicBuildRequest, anthropicCollect_fst, lastSystemContent]
    by_cases h : messages.foldl
        (fun acc m => if m.role = Role.system then m.content else acc) "" = ""
    · simp [h]
    · simp [h]
  · by_cases ht : 0 < tools.length <;> simp [mistralBuildRequest, ht]

/-- Witness for C10 at content "hi" and one tool call. -/
theorem c10_witness :
    openaiConvertMessage
        { role := Role.assistant, content := "hi", toolCallID := "", toolCalls := [toolCall0] }
      = OpenAIMessageParam.assistantToolCalls ([toolCall0].map openaiEncodeToolCall)
    ∧ anthropicConvertMsg
        { role := Role.assistant, content := "hi", toolCallID := "", toolCalls := [toolCall0] }
      = { role := "assistant"
          content := AnthropicContent.blocks
            (AnthropicBlock.text "hi" :: [toolCall0].map anthropicEncodeToolCall) } :=
  c10_assistant_content_encoding "hi" "" [toolCall0] (by decide)
    (List.cons_ne_nil toolCall0 [])

/-! ## Claim C1 -/

/-- C1: for each adapter, encoding a canonical Message and Tool sequence
into the vendor request and then decoding a well-formed synthetic vendor
response (every tool-call argument payload unmarshals; the choices list
is nonempty where the adapter reads the first choice) yields a Response
whose ToolCalls carry, in order, exactly the id, name and decoded
argument mapping of the tool calls the vendor response carries. -/
theorem c1_roundtrip_preserves_toolcalls
    (mc : MistralClient) (ac : AnthropicClient)
    (messages : List Message) (tools : List Tool)
    (och : OpenAIChoice) (orest : List OpenAIChoice) (ou : OpenAIUsage)
    (mch : MistralChoice) (mrest : List MistralChoice) (mid mobj : String)
    (mcreated : Int) (mmodel : String) (mu : MistralUsage)
    (aresp : AnthropicAPIResp)
    (ho : ∀ tc ∈ och.message.toolCalls, tc.function.arguments.isOk = true)
    (hm : ∀ tc ∈ mch.message.toolCalls, tc.function.arguments.isOk = true)
    (ha : ∀ b ∈ aresp.content, b.type = "tool_use" → b.input.isOk = true) :
    OptForall₂ preservesOpenAICall och.message.toolCalls
      (goToolCalls (openaiChat messages tools
        (fun _ => Except.ok { choices := och :: orest, usage := ou })))
    ∧ OptForall₂ preservesMistralCall mch.message.toolCalls
      (exToolCalls (mistralChat mc messages tools
        (fun _ => Except.ok (mistralOkHttp
          { id := mid, object := mobj, created := mcreated, model := mmodel
            choices := mch :: mrest, usage := mu }))))
    ∧ OptForall₂ preservesAnthropicCall
        (aresp.content.filter fun b => decide (b.type = "tool_use"))
        (exToolCalls (anthropicChat ac messages tools
          (fun _ => Except.ok (anthropicOkHttp aresp)))) := by
  refine ⟨?_, ?_, ?_⟩
  · exact forall₂_openai_decode _ ho
  · exact forall₂_mistral_decode _ hm
  · have hchat : exToolCalls (anthropicChat ac messages tools
        (fun _ => Except.ok (anthropicOkHttp aresp)))
        = some ((anthropicParseDecoded aresp).toolCalls) := rfl
    rw [hchat, anthropicParseDecoded_toolCalls]
    exact forall₂_anthropic_decode _ fun b hb =>
      ha b (List.mem_filter.mp hb).1 (of_decide_eq_true (List.mem_filter.mp hb).2)

/-- Witness for C1 at concrete well-formed responses for all three
adapters. -/
theorem c1_witness :
    OptForall₂ preservesOpenAICall och0.message.toolCalls
      (goToolCalls (openaiChat [] []
        (fun _ => Except.ok { choices := och0 :: []
                              usage := { promptTokens := 1, completionTokens := 2 } })))
    ∧ OptForall₂ preservesMistralCall mch0.message.toolCalls
      (exToolCalls (mistralChat client0M [] []
        (fun _ => Except.ok (mistralOkHttp
          { id := "r1", object := "chat.completion", created := 0
            model := "mistral-large-latest", choices := mch0 :: []
            usage := { promptTokens := 1, completionTokens := 2, totalTokens := 3 } }))))
    ∧ OptForall₂ preservesAnthropicCall
        (aresp1.content.filter fun b => decide (b.type = "tool_use"))
        (exToolCalls (anthropicChat client0A [] []
          (fun _ => Except.ok (anthropicOkHttp aresp1)))) :=
  c1_roundtrip_preserves_toolcalls client0M client0A [] []
    och0 [] { promptTokens := 1, completionTokens := 2 }
    mch0 [] "r1" "chat.completion" 0 "mistral-large-latest"
    { promptTokens := 1, completionTokens := 2, totalTokens := 3 }
    aresp1 (by decide) (by decide) (by decide)

/-! ## Claim C2 -/

/-- C2: when one tool call's argument payload in an otherwise well-formed
vendor response fails to unmarshal, each adapter still returns a Response
(no error is raised) with one decoded call per vendor call, and the
decoding of the malformed call keeps its id and name while substituting
the empty parameter mapping. -/
theorem c2_malformed_args_recovered
    (mc : MistralClient) (ac : AnthropicClient)
    (messages : List Message) (tools : List Tool)
    (och : OpenAIChoice) (orest : List OpenAIChoice) (ou : OpenAIUsage)
    (obad : OpenAIRespToolCall) (_hob : obad ∈ och.message.toolCalls)
    (hoa : obad.function.arguments = ArgPayload.bad)
    (mch : MistralChoice) (mrest : List MistralChoice) (mid mobj : String)
    (mcreated : Int) (mmodel : String) (mu : MistralUsage)
    (mbad : MistralToolCall) (_hmb : mbad ∈ mch.message.toolCalls)
    (hma : mbad.function.arguments = ArgPayload.bad)
    (aresp : AnthropicAPIResp)
    (abad : AnthropicRespBlock) (_hab : abad ∈ aresp.content)
    (_habt : abad.type = "tool_use") (haa : abad.input = ArgPayload.bad) :
    goToolCalls (openaiChat messages tools
        (fun _ => Except.ok { choices := och :: orest, usage := ou }))
      = some (och.message.toolCalls.map openaiDecodeToolCall)
    ∧ openaiDecodeToolCall obad
      = { id := obad.id, name := obad.function.name, parameters := [] }
    ∧ exToolCalls (mistralChat mc messages tools
        (fun _ => Except.ok (mistralOkHttp
          { id := mid, object := mobj, created := mcreated, model := mmodel
            choices := mch :: mrest, usage := mu })))
      = some (mch.message.toolCalls.map mistralDecodeToolCall)
    ∧ mistralDecodeToolCall mbad
      = { id := mbad.id, name := mbad.function.name, parameters := [] }
    ∧ exToolCalls (anthropicChat ac messages tools
        (fun _ => Except.ok (anthropicOkHttp aresp)))
      = some ((aresp.content.filter fun b => decide (b.type = "tool_use")).map
          anthropicDecodeBlockCall)
    ∧ anthropicDecodeBlockCall abad
      = { id := abad.id, name := abad.name, parameters := [] } := by
  refine ⟨rfl, ?_, rfl, ?_, ?_, ?_⟩
  · simp [openaiDecodeToolCall, hoa, fieldsOf]
  · simp [mistralDecodeToolCall, hma, fieldsOf]
  · have hchat : exToolCalls (anthropicChat ac messages tools
        (fun _ => Except.ok (anthropicOkHttp aresp)))
        = some ((anthropicParseDecoded aresp).toolCalls) := rfl
    rw [hchat, anthropicParseDecoded_toolCalls]
  · simp [anthropicDecodeBlockCall, haa, fieldsOf]

/-- Witness for C2 at concrete responses whose first tool call (or first
tool_use block) carries a malformed argument payload. -/
theorem c2_witness :
    goToolCalls (openaiChat [] []
        (fun _ => Except.ok { choices := och2 :: []
                              usage := { promptTokens := 1, completionTokens := 2 } }))
      = some (och2.message.toolCalls.map openaiDecodeToolCall)
    ∧ openaiDecodeToolCall otcBad
      = { id := otcBad.id, name := otcBad.function.name, parameters := [] }
    ∧ exToolCalls (mistralChat client0M [] []
        (fun _ => Except.ok (mistralOkHttp
          { id := "r2", object := "chat.completion", created := 0
            model := "mistral-large-latest", choices := mch2 :: []
            usage := { promptTokens := 1, completionTokens := 2, totalTokens := 3 } })))
      = some (mch2.message.toolCalls.map mistralDecodeToolCall)
    ∧ mistralDecodeToolCall mtcBad
      = { id := mtcBad.id, name := mtcBad.function.name, parameters := [] }
    ∧ exToolCalls (anthropicChat client0A [] []
        (fun _ => Except.ok (anthropicOkHttp aresp2)))
      = some ((aresp2.content.filter fun b => decide (b.type = "tool_use")).map
          anthropicDecodeBlockCall)
    ∧ anthropicDecodeBlockCall ablockBad
      = { id := ablockBad.id, name := ablockBad.name, parameters := [] } :=
  c2_malformed_args_recovered client0M client0A [] []
    och2 [] { promptTokens := 1, completionTokens := 2 }
    otcBad (List.mem_cons_self otcBad [otcOk]) rfl
    mch2 [] "r2" "chat.completion" 0 "mistral-large-latest"
    { promptTokens := 1, completionTokens := 2, totalTokens := 3 }
    mtcBad (List.mem_cons_self mtcBad [mtcOk]) rfl
    aresp2 ablockBad (List.mem_cons_self ablockBad [ablockOk]) rfl rfl

end Trix
